import Mathlib

set_option autoImplicit false

namespace GeoMunge

/-- Modelled from the spec: the crate-wide error type FiberError. Its defining
module is not among the staged sources; the constructors and payloads follow
its use sites across the staged files: Arg carries a static message, the input
and output variant (written ioMsg here) carries a static message, and Parse
carries a record index and a message. -/
inductive FiberError where
  | arg (msg : String)
  | ioMsg (msg : String)
  | parseErr (i : Nat) (msg : String)
deriving DecidableEq, Repr

/-- Geometry variants a datum can store, the subset of geo types the quadtree
accepts in this repository: Point, LineString, and Polygon with an outer ring
and inner rings. Coordinates are rationals standing for the f64 values. -/
inductive Geometry where
  | point (x y : ℚ)
  | lineString (pts : List (ℚ × ℚ))
  | polygon (outer : List (ℚ × ℚ)) (inners : List (List (ℚ × ℚ)))
deriving DecidableEq, Repr

/-- Translation of the Rust test matches with pattern Geometry::Point(_):
true exactly on the point variant. -/
def Geometry.isPoint : Geometry → Bool
  | .point _ _ => true
  | _ => false

/-- Outcome of the build loop of make_qt and shp_build for one converted shape:
the datum is inserted, the insert call itself fails and is logged, the shape is
rejected by the point-discipline gate and logged, or the shape could not be
read and is logged. A logged outcome adds nothing to the tree. -/
inductive BuildAction where
  | inserted
  | insertFailedLog
  | invalidShapeLog
  | readFailedLog
deriving DecidableEq, Repr

/-- Translation of the gate on line 97 of src/src/make_qt.rs. The Rust code
tests matches with scrutinee Geometry::Point::<f64> (the constructor value,
not the shape) against the wildcard pattern, and a wildcard matches every
value, so the gate is true for every shape; the shape argument is unused. -/
def make_qt_gate (_shape : Geometry) : Bool := true

/-- Loop body of make_qt, src/src/make_qt.rs lines 86 to 110, for one converted
shape with its record index. The insert call of the external quadtree crate is
abstracted by the boolean inner_ok, true when that call returns Ok; note the
tree built by make_qt is a BoundsQuadTree whether or not is_bounds is set
(line 84 of the same file). -/
def make_qt_handle (is_bounds inner_ok : Bool)
    (shp : Except Unit (Geometry × Nat)) : BuildAction :=
  match shp with
  | .ok (shape, _i) =>
    if is_bounds then
      if inner_ok then .inserted else .insertFailedLog
    else
      if make_qt_gate shape then
        if inner_ok then .inserted else .insertFailedLog
      else .invalidShapeLog
  | .error _ => .readFailedLog

/-- Loop body of shp_build, src/src/qt/shapefile.rs lines 109 to 133, for one
converted shape: the point-discipline gate here really is matches on the shape
with the pattern Geometry::Point(_). -/
def shp_build_handle (is_bounds inner_ok : Bool)
    (shp : Except Unit (Geometry × Nat)) : BuildAction :=
  match shp with
  | .ok (shape, _i) =>
    if is_bounds then
      if inner_ok then .inserted else .insertFailedLog
    else
      if shape.isPoint then
        if inner_ok then .inserted else .insertFailedLog
      else .invalidShapeLog
  | .error _ => .readFailedLog

/-- The Searchable insert of the PointQuadTree wrapper, src/src/qt/mod.rs lines
62 to 71: a non-point geometry is rejected before the inner insert of the
external quadtree crate is reached; that inner call is abstracted by the
boolean inner_ok. -/
def point_qt_insert (inner_ok : Bool) (geom : Geometry) :
    Except FiberError Unit :=
  if !geom.isPoint then
    .error (.arg "Invalid shape. Can only insert Points into a Point QuadTree.")
  else if inner_ok then .ok ()
  else .error (.arg "Cannot add item to QuadTree.")

/-- The GeoJson arm of make_bbox, src/src/qt/mod.rs lines 213 to 229, applied
to the top-level bbox of the parsed file. A result of none is the panic of the
direct index expressions bbox, position 2 and 3, past the end of the vector;
some carries the corner points computed or the error returned. The guard in
the code compares the length against 2, although the comment above it says it
ensures length 4. -/
def make_bbox_json (bbox : Option (List ℚ)) :
    Option (Except FiberError ((ℚ × ℚ) × (ℚ × ℚ))) :=
  match bbox with
  | none => some (.error (.arg "No bbox present on GeoJson"))
  | some b =>
    if b.length ≠ 2 then
      some (.error (.arg "Invalid bounding box present in GeoJson"))
    else
      match b.get? 0, b.get? 1, b.get? 2, b.get? 3 with
      | some x0, some x1, some x2, some x3 => some (.ok ((x0, x1), (x2, x3)))
      | _, _, _, _ => none

/-- Which build function make_qt_from_path runs for a recognized extension. -/
inductive QtBuilder where
  | shpBuild
  | geojsonBuild
  | kmlBuild
deriving DecidableEq, Repr

/-- Dispatch of make_qt_from_path, src/src/qt/mod.rs lines 151 to 165, on the
extension of the path: the build function chosen, or the error returned when
the extension is absent or not recognized. -/
def make_qt_from_path (ext : Option String) : Except FiberError QtBuilder :=
  match ext with
  | none => .error (.ioMsg "Cannot parse file extension")
  | some e =>
    if e = "shp" then .ok .shpBuild
    else if e = "json" then .ok .geojsonBuild
    else if e = "kml" ∨ e = "kmz" then .ok .kmlBuild
    else .error (.ioMsg "Unsupported file type")

/-- Reader configuration a csv ReaderBuilder call produces: whether the first
row is a header row, and the delimiter byte. -/
structure ReaderConfig where
  has_headers : Bool
  delimiter : Nat
deriving DecidableEq, Repr

/-- Options for constructing a quadtree, src/src/qt/mod.rs lines 20 to 25. -/
structure QtData where
  is_bounds : Bool
  bounds : (ℚ × ℚ) × (ℚ × ℚ)
  depth : Nat
  max_children : Nat

/-- Reader construction in build_csv, src/src/qt/csv.rs lines 36 to 42: the
reference-dataset reader has headers on and the delimiter hard-coded to the
comma byte 44; the function receives only the path and the quadtree options,
no delimiter. -/
def build_csv_reader (_path : String) (_opts : QtData) : ReaderConfig :=
  { has_headers := true, delimiter := 44 }

/-- Reader construction in build_input_settings,
src/src/bin/proximity/csv/reader.rs lines 24 to 27: the comparison-stream
reader takes its delimiter byte from the arguments. -/
def build_input_reader (delimiter : Nat) : ReaderConfig :=
  { has_headers := true, delimiter := delimiter }

/-- The writer-relevant slice of the proximity InputSettings: the id column
label, the single-byte delimiter, and the requested extra fields. -/
structure WriterSettings where
  id_label : String
  delimiter : Nat
  fields : Option (List String)

/-- Writer construction in make_csv_writer,
src/src/bin/proximity/csv/writer.rs lines 15 to 17: the output writer takes
its delimiter byte from the settings. -/
def make_csv_writer_config (settings : WriterSettings) : ReaderConfig :=
  { has_headers := true, delimiter := settings.delimiter }

/-- Header row written by make_csv_writer,
src/src/bin/proximity/csv/writer.rs lines 14 to 36: the base fields chained
with the extra fields, which default to an empty vector. -/
def make_csv_writer_header (settings : WriterSettings) : List String :=
  let base_fields := [settings.id_label, "lng", "lat", "distance", "match_index"]
  let tmp_vec : List String := []
  base_fields ++ settings.fields.getD tmp_vec

/-- Nodes of a parsed KML document as the iterators over it classify them;
the payload of each leaf variant is abstracted to the parameter a. -/
inductive KmlNode (a : Type) where
  | kmlDocument (elements : List (KmlNode a))
  | document (elements : List (KmlNode a))
  | folder (elements : List (KmlNode a))
  | multiGeometry (d : a)
  | linearRing (d : a)
  | lineString (d : a)
  | location (d : a)
  | point (d : a)
  | placemark (d : a)
  | polygon (d : a)
  | otherNode

/-- Items the by-reference KML iterator can emit, src/src/kml/mod.rs lines 179
to 187, with payloads abstracted to the parameter a. -/
inductive KmlItemRef (a : Type) where
  | multiGeometry (d : a)
  | linearRing (d : a)
  | lineString (d : a)
  | location (d : a)
  | placemark (d : a)
  | point (d : a)
  | polygon (d : a)

/-- States of the by-reference KML iterator IntoIterRef, src/src/kml/mod.rs
lines 189 to 193: the flat-map iterator over document elements, a single item,
or the empty iterator. The inner flat-map state is abstracted to the parameter
s; no claim steps it. -/
inductive IntoIterRef (a s : Type) where
  | iter (inner : s)
  | once (item : a)
  | empty

/-- Translation of the function new of IntoIterRef, src/src/kml/mod.rs lines
195 to 209: the three document variants open the flat-map iterator over their
elements, a MultiGeometry root becomes the Once state, and every other root is
Empty. -/
def IntoIterRef.new {a : Type} :
    KmlNode a → IntoIterRef (KmlItemRef a) (List (KmlNode a))
  | .kmlDocument elements => .iter elements
  | .document elements => .iter elements
  | .folder elements => .iter elements
  | .multiGeometry d => .once (.multiGeometry d)
  | _ => .empty

/-- Translation of next of the Iterator implementation for IntoIterRef,
src/src/kml/mod.rs lines 211 to 221: the Iter arm steps the inner iterator via
the parameter inner_next, the Once arm returns a clone of its item and leaves
the state Once (nothing replaces the state with Empty), and Empty yields
nothing. -/
def IntoIterRef.next {a s : Type} (inner_next : s → Option a × s) :
    IntoIterRef a s → Option a × IntoIterRef a s
  | .iter inner =>
    let stepped := inner_next inner
    (stepped.1, .iter stepped.2)
  | .once item => (some item, .once item)
  | .empty => (none, .empty)

/-- The state after n calls of next, discarding the emitted items. -/
def IntoIterRef.stepN {a s : Type} (inner_next : s → Option a × s) :
    Nat → IntoIterRef a s → IntoIterRef a s
  | 0, st => st
  | n + 1, st => IntoIterRef.stepN inner_next n (IntoIterRef.next inner_next st).2

/-- Degree-to-radian conversion as to_radians_in_place applies it: every
coordinate is multiplied by the conversion factor. The true factor pi over 180
is irrational, so the embedding carries the factor as the parameter c. -/
def toRadCoord (c : ℚ) (p : ℚ × ℚ) : ℚ × ℚ := (p.1 * c, p.2 * c)

/-- Degree-to-radian conversion over a whole ring of coordinates. -/
def toRadRing (c : ℚ) (ring : List (ℚ × ℚ)) : List (ℚ × ℚ) :=
  ring.map (toRadCoord c)

/-- Raw KML geometries as the kml crate parses them, the variants
convert_kml_geom distinguishes; coordinates are in degrees, x the longitude
and y the latitude, and each variant carries its attribute map. -/
inductive KmlGeom where
  | pointG (x y : ℚ) (attrs : List (String × String))
  | polygonG (outer : List (ℚ × ℚ)) (inners : List (List (ℚ × ℚ)))
      (attrs : List (String × String))
  | lineStringG (pts : List (ℚ × ℚ)) (attrs : List (String × String))
  | linearRingG (pts : List (ℚ × ℚ)) (attrs : List (String × String))
  | multiGeometryG (geoms : List KmlGeom)
  | elementG
  | otherG

/-- The KmlItem enum of src/src/kml/mod.rs lines 127 to 135: the subset of KML
members the owned iterator emits. A Location carries a latitude and a
longitude in degrees; a Placemark carries its optional name, description and
geometry. -/
inductive KmlItem where
  | point (x y : ℚ) (attrs : List (String × String))
  | polygon (outer : List (ℚ × ℚ)) (inners : List (List (ℚ × ℚ)))
      (attrs : List (String × String))
  | linearRing (pts : List (ℚ × ℚ)) (attrs : List (String × String))
  | lineString (pts : List (ℚ × ℚ)) (attrs : List (String × String))
  | placemark (name description : Option String) (geometry : Option KmlGeom)
      (attrs : List (String × String))
  | location (latitude longitude : ℚ) (attrs : List (String × String))
  | multiGeometry (geoms : List KmlGeom)

/-- The datum the KML build inserts, the named-field IndexedDatum of
src/src/qt/kml.rs: the converted geometry, the source index, and the KML item
kept as metadata. -/
structure IndexedDatumKml where
  geom : Geometry
  index : Nat
  meta : Option KmlItem

/-- Translation of convert_kml_geom, src/src/qt/kml.rs lines 207 to 239:
each plain geometry is converted to its geo counterpart with every coordinate
multiplied by the conversion factor c, paired with the KmlItem kept as
metadata; nested MultiGeometries, Elements and unknown variants are errors. -/
def convert_kml_geom (c : ℚ) : KmlGeom → Except FiberError (Geometry × KmlItem)
  | .pointG x y attrs => .ok (.point (x * c) (y * c), .point x y attrs)
  | .polygonG outer inners attrs =>
      .ok (.polygon (toRadRing c outer) (inners.map (toRadRing c)),
        .polygon outer inners attrs)
  | .lineStringG pts attrs =>
      .ok (.lineString (toRadRing c pts), .lineString pts attrs)
  | .linearRingG pts attrs =>
      .ok (.lineString (toRadRing c pts), .linearRing pts attrs)
  | .multiGeometryG _ =>
      .error (.arg "Nested KML MultiGeometries are not supported")
  | .elementG => .error (.arg "Elements do not contain geometry data")
  | .otherG => .error (.arg "Unknown type")

/-- Translation of map_kml_item, src/src/qt/kml.rs lines 136 to 189, from an
indexed KML item to the datums offered to the quadtree. Every arm except
Location multiplies its coordinates by the conversion factor c; the Location
arm builds its point with x the latitude and y the longitude, exactly as the
source writes it, and applies no conversion. -/
def map_kml_item (c : ℚ) :
    Nat × KmlItem → List (Except FiberError IndexedDatumKml)
  | (index, .point x y attrs) =>
      [.ok ⟨.point (x * c) (y * c), index, some (.point x y attrs)⟩]
  | (index, .polygon outer inners attrs) =>
      [.ok ⟨.polygon (toRadRing c outer) (inners.map (toRadRing c)), index,
        some (.polygon outer inners attrs)⟩]
  | (index, .linearRing pts attrs) =>
      [.ok ⟨.lineString (toRadRing c pts), index, some (.linearRing pts attrs)⟩]
  | (index, .lineString pts attrs) =>
      [.ok ⟨.lineString (toRadRing c pts), index, some (.lineString pts attrs)⟩]
  | (index, .placemark name description geometry attrs) =>
      [match geometry with
       | none => .error (.arg "Placemark does not have any geometry")
       | some g =>
         (convert_kml_geom c g).map fun gm =>
           ⟨gm.1, index, some (.placemark name description geometry attrs)⟩]
  | (index, .location latitude longitude attrs) =>
      [.ok ⟨.point latitude longitude, index,
        some (.location latitude longitude attrs)⟩]
  | (index, .multiGeometry geoms) =>
      geoms.map fun g =>
        (convert_kml_geom c g).map fun gm => ⟨gm.1, index, some gm.2⟩

/-- Modelled from the spec: MEAN_EARTH_RADIUS, the constant of the external
quadtree crate by which angular distances are scaled to meters; the spec
glossary defines meters as the angular distance multiplied by the mean Earth
radius, 6371008.8 meters in the geo ecosystem. -/
def MEAN_EARTH_RADIUS : ℚ := 63710088 / 10

/-- Round a rational to the nearest integer with ties to the even integer: the
rounding Rust applies when a float is formatted with a fixed number of
fractional digits. -/
def round_half_even (x : ℚ) : ℤ :=
  let f := ⌊x⌋
  let r := x - (f : ℚ)
  if r < 1 / 2 then f
  else if 1 / 2 < r then f + 1
  else if f % 2 = 0 then f else f + 1

/-- The distance field written by write_line,
src/src/bin/proximity/csv/writer.rs line 73: the angular distance of the match
times MEAN_EARTH_RADIUS, rendered by format with precision 3; the rendered
digits are captured as the integer number of millimeters they stand for. -/
def write_line_distance_milli (distance : ℚ) : ℤ :=
  round_half_even (1000 * (distance * MEAN_EARTH_RADIUS))

/-- Truncation at the millimeter of the same metric distance: the rendering
the claim, the spec and the comment above the format call describe. -/
def trunc_milli (distance : ℚ) : ℤ :=
  ⌊1000 * (distance * MEAN_EARTH_RADIUS)⌋

/-- Rendering a dbase field for csv output, convert_dbase_field_opt of
src/src/shp/mod.rs lines 38 to 43: a missing field becomes the empty string,
a present one is rendered by convert_dbase_field, whose per-type rendering is
modelled by keeping the record as its already-rendered strings. -/
def convert_dbase_field_opt : Option String → String
  | some s => s
  | none => ""

/-- The per-source metadata a stored datum keeps, the BaseData enum of
src/src/qt/datum.rs lines 61 to 71. Each variant is modelled as the
association of field names to rendered string values: for Shp the rendered
dbase record, for Json the feature properties, for Kml the attribute map the
item carries, for Csv the header-to-value map. -/
inductive BaseData where
  | shp (record : List (String × String))
  | json (props : List (String × String))
  | kml (attrs : List (String × String))
  | csvData (record : List (String × String))
  | noneData

/-- Field extraction for the Shp variant: delegate to the dbase rendering with
its missing-field default. -/
def shp_field_val (record : List (String × String)) (f : String) : String :=
  convert_dbase_field_opt (List.lookup f record)

/-- Modelled from the spec: json_field_val, whose defining module is not among
the staged sources; per the spec a missing field projects to the empty string,
and src/src/qt/geojson.rs looks the field up in the feature properties with an
empty-string default. -/
def json_field_val (props : List (String × String)) (f : String) : String :=
  (List.lookup f props).getD ""

/-- Modelled from the spec: kml_field_val, whose defining module is not among
the staged sources; make_string of src/src/qt/kml.rs lines 128 to 130 looks
the field up in the attribute map with an empty-string default. -/
def kml_field_val (attrs : List (String × String)) (f : String) : String :=
  (List.lookup f attrs).getD ""

/-- Field extraction for the Csv variant, csv_field_val of src/src/qt/csv.rs
lines 30 to 32: look the field up in the record map, empty string when it is
absent. -/
def csv_field_val (record : List (String × String)) (f : String) : String :=
  (List.lookup f record).getD ""

/-- Translation of iter_str of BaseData, src/src/qt/datum.rs lines 76 to 92:
with a fields list, one string per field in the order given, extracted by the
variant-specific lookup; with no fields list, the empty iterator. -/
def BaseData.iter_str (b : BaseData) (fields : Option (List String)) :
    List String :=
  match fields with
  | some fields =>
    fields.map fun f =>
      match b with
      | .shp record => shp_field_val record f
      | .json props => json_field_val props f
      | .kml attrs => kml_field_val attrs f
      | .csvData record => csv_field_val record f
      | .noneData => ""
  | none => []

/-- The metadata sequence built by make_search_result of ShpWithMeta,
src/src/qt/shapefile.rs lines 23 to 47: the literal string id chained before
the rendered requested fields, or that string alone when no fields are
requested. -/
def shp_make_search_result_meta (record : List (String × String))
    (fields : Option (List String)) : List String :=
  let id_meta := ["id"]
  match fields with
  | some fields =>
    id_meta ++ fields.map fun f => convert_dbase_field_opt (List.lookup f record)
  | none => id_meta

/-- C1. The point-discipline gate is vacuous in the make_qt build path: for a
converted LineString shape under point discipline (is_bounds false), make_qt
still reaches the insert call and the datum is inserted when that call
succeeds, instead of the rejection the claim requires; the same shape is
rejected before insertion by shp_build and by the PointQuadTree insert
wrapper, so the gate is not applied by every point-discipline build path. -/
theorem c1_make_qt_point_gate_vacuous :
    make_qt_handle false true (.ok (.lineString [(0, 0), (1, 1)], 0)) =
      .inserted ∧
    shp_build_handle false true (.ok (.lineString [(0, 0), (1, 1)], 0)) =
      .invalidShapeLog ∧
    point_qt_insert true (.lineString [(0, 0), (1, 1)]) =
      .error (.arg "Invalid shape. Can only insert Points into a Point QuadTree.") :=
  ⟨rfl, rfl, rfl⟩

/-- C6. The GeoJson bbox guard tests the wrong length: a two-element bbox
passes the guard and the code then panics indexing position 2, returning no
error at all, while a four-element bbox, the only well-formed one, is rejected
as invalid; a missing bbox is reported as absent. -/
theorem c6_geojson_bbox_check_wrong_length :
    make_bbox_json (some [0, 1]) = none ∧
    make_bbox_json (some [0, 1, 2, 3]) =
      some (.error (.arg "Invalid bounding box present in GeoJson")) ∧
    make_bbox_json none =
      some (.error (.arg "No bbox present on GeoJson")) :=
  ⟨rfl, rfl, rfl⟩

/-- C7. Counterexample to the claim that make_qt_from_path accepts geojson and
csv: both extensions fall through to the unsupported-file-type error. -/
theorem c7_extension_counterexample :
    make_qt_from_path (some "geojson") =
      .error (.ioMsg "Unsupported file type") ∧
    make_qt_from_path (some "csv") =
      .error (.ioMsg "Unsupported file type") :=
  ⟨rfl, rfl⟩

/-- C7 amended. make_qt_from_path accepts exactly the extensions shp, json,
kml and kmz, choosing the shapefile, geojson and kml builders respectively,
and fails on a path with no parsable extension. -/
theorem c7_extensions_amended (s : String) :
    ((make_qt_from_path (some s)).isOk = true ↔
      (s = "shp" ∨ s = "json" ∨ s = "kml" ∨ s = "kmz")) ∧
    make_qt_from_path (some "shp") = .ok .shpBuild ∧
    make_qt_from_path (some "json") = .ok .geojsonBuild ∧
    make_qt_from_path (some "kml") = .ok .kmlBuild ∧
    make_qt_from_path (some "kmz") = .ok .kmlBuild ∧
    make_qt_from_path none = .error (.ioMsg "Cannot parse file extension") := by
  refine ⟨?_, rfl, rfl, rfl, rfl, rfl⟩
  unfold make_qt_from_path
  by_cases h1 : s = "shp" <;> by_cases h2 : s = "json" <;>
    by_cases h3 : s = "kml" <;> by_cases h4 : s = "kmz" <;>
    simp [h1, h2, h3, h4, Except.isOk, Except.toBool]

/-- C9. The reference-dataset reader built by build_csv always uses the comma
byte 44, whatever path and options it receives, while the comparison-stream
reader and the output writer take the delimiter configured in the arguments
and settings. -/
theorem c9_reference_reader_delimiter_comma (path : String) (opts : QtData)
    (d : Nat) (s : WriterSettings) :
    (build_csv_reader path opts).delimiter = 44 ∧
    (build_csv_reader path opts).has_headers = true ∧
    (build_input_reader d).delimiter = d ∧
    (make_csv_writer_config s).delimiter = s.delimiter :=
  ⟨rfl, rfl, rfl, rfl⟩

/-- C10. The Once state of the by-reference KML iterator is never consumed:
after any number of calls of next the state is still Once with the same item,
every call emits some of that item, and none is never reached; a MultiGeometry
root is exactly the root that new maps to the Once state. -/
theorem c10_once_never_consumed (a s : Type)
    (inner_next : s → Option (KmlItemRef a) × s)
    (item : KmlItemRef a) (n : Nat) (d : a) :
    IntoIterRef.stepN inner_next n (IntoIterRef.once item) =
      IntoIterRef.once item ∧
    (IntoIterRef.next inner_next
        (IntoIterRef.stepN inner_next n (IntoIterRef.once item))).1 =
      some item ∧
    IntoIterRef.new (KmlNode.multiGeometry d) =
      IntoIterRef.once (KmlItemRef.multiGeometry d) := by
  have hstep : ∀ m : Nat,
      IntoIterRef.stepN inner_next m (IntoIterRef.once item) =
        IntoIterRef.once item := by
    intro m
    induction m with
    | zero => rfl
    | succ k ih => simpa [IntoIterRef.stepN, IntoIterRef.next] using ih
  exact ⟨hstep n, by rw [hstep n]; rfl, rfl⟩

/-- Index and label settings for the comparison stream, the InputSettings of
src/src/csv/reader.rs lines 10 to 15: the positions of the lat and lng columns
and the optional position of the id column. -/
structure InputSettings where
  lat_index : Nat
  lng_index : Nat
  id_index : Option Nat
  id_label : String

/-- A parsed comparison record, the ParsedRecord of src/src/csv/reader.rs
lines 18 to 22: the raw record, the point in radians, and the optional id. -/
structure ParsedRecord where
  record : List String
  point : ℚ × ℚ
  id : Option String

/-- Translation of parse_record, src/src/csv/reader.rs lines 84 to 106. The
float parser of the standard library is the parameter p and the radian factor
is c. A read error of the csv layer is the error arm of the input. The source
indexes each column with get and unwrap; the unwrap panic is the none result,
every non-panicking outcome is some: the Parse error when lng or lat does not
parse, otherwise the parsed record with the point converted to radians. -/
def parse_record (p : String → Option ℚ) (c : ℚ) (i : Nat)
    (record : Except Unit (List String)) (settings : InputSettings) :
    Option (Except FiberError ParsedRecord) :=
  match record with
  | .error _ => some (.error (.parseErr i "cannot read input record"))
  | .ok record =>
    match record.get? settings.lng_index with
    | none => none
    | some lngStr =>
      match p lngStr with
      | none => some (.error (.parseErr i "cannot parse lng for input record"))
      | some lng =>
        match record.get? settings.lat_index with
        | none => none
        | some latStr =>
          match p latStr with
          | none =>
            some (.error (.parseErr i "cannot parse lat for input record"))
          | some lat =>
            match settings.id_index with
            | some j =>
              match record.get? j with
              | none => none
              | some idv => some (.ok ⟨record, toRadCoord c (lng, lat), some idv⟩)
            | none => some (.ok ⟨record, toRadCoord c (lng, lat), none⟩)

/-- What one iteration of the query loop does with a record: write the rows of
a successful search, log a parse error to stderr, or log a search error to
stderr. Only the wrote outcome emits output rows. -/
inductive RunAction (r : Type) where
  | wrote (rows : List r)
  | loggedParse (e : FiberError)
  | loggedSearch (msg : String)

/-- One iteration of the loop of exec_single_thread,
src/src/bin/proximity/single_thread.rs lines 31 to 75, and of the loop of
main, src/src/main.rs lines 135 to 177: parse the record, then run the find or
knn search, abstracted as the parameter search covering both the single and
the k arm, and log any error; the none result propagates the unwrap panic of
parse_record. -/
def process_record {r : Type} (p : String → Option ℚ) (c : ℚ)
    (search : ParsedRecord → Except String (List r))
    (settings : InputSettings) (i : Nat)
    (record : Except Unit (List String)) : Option (RunAction r) :=
  match parse_record p c i record settings with
  | none => none
  | some (.error e) => some (.loggedParse e)
  | some (.ok parsed) =>
    match search parsed with
    | .ok rows => some (.wrote rows)
    | .error m => some (.loggedSearch m)

/-- The enumerated record loop of exec_single_thread: each record of the
stream is processed in order with its index, and a panic anywhere ends the run
with none. -/
def exec_single_thread {r : Type} (p : String → Option ℚ) (c : ℚ)
    (search : ParsedRecord → Except String (List r))
    (settings : InputSettings) :
    Nat → List (Except Unit (List String)) → Option (List (RunAction r))
  | _, [] => some []
  | i, rec :: rest =>
    match process_record p c search settings i rec with
    | none => none
    | some a =>
      (exec_single_thread p c search settings (i + 1) rest).map (a :: ·)

/-- The structural guarantee the csv layer provides for a successfully read
record: the reader is strict, so every record it yields has as many fields as
the header row, and the column indices found in the header are below that
length. -/
def record_len_ok (settings : InputSettings) :
    Except Unit (List String) → Bool
  | .error _ => true
  | .ok rec =>
    decide (settings.lng_index < rec.length) &&
    decide (settings.lat_index < rec.length) &&
    (settings.id_index.all fun j => decide (j < rec.length))

/-- On a record whose column indices are in range, parse_record never reaches
an unwrap panic. -/
lemma parse_record_isSome (p : String → Option ℚ) (c : ℚ) (i : Nat)
    (rec : Except Unit (List String)) (settings : InputSettings)
    (h : record_len_ok settings rec = true) :
    (parse_record p c i rec settings).isSome := by
  cases rec with
  | error e => simp [parse_record]
  | ok rec =>
    unfold record_len_ok at h
    rw [Bool.and_eq_true, Bool.and_eq_true] at h
    obtain ⟨⟨hlng, hlat⟩, hid⟩ := h
    rw [decide_eq_true_eq] at hlng hlat
    unfold parse_record
    simp only [List.get?_eq_get hlng, List.get?_eq_get hlat]
    cases p (rec.get ⟨settings.lng_index, hlng⟩) with
    | none => simp
    | some lng =>
      cases p (rec.get ⟨settings.lat_index, hlat⟩) with
      | none => simp
      | some lat =>
        cases hii : settings.id_index with
        | none => simp
        | some j =>
          rw [hii] at hid
          simp only [Option.all_some, decide_eq_true_eq] at hid
          simp [List.get?_eq_get hid, List.getElem?_eq_getElem hid]

/-- The loop processes every record of the stream independently: when every
record respects the header length, the run panics nowhere, produces one action
per record, and the action at each position is exactly the processing of the
record at that position with its stream index. -/
lemma exec_single_thread_spec {r : Type} (p : String → Option ℚ) (c : ℚ)
    (search : ParsedRecord → Except String (List r))
    (settings : InputSettings) :
    ∀ (rs : List (Except Unit (List String))) (start : Nat),
      rs.all (record_len_ok settings) = true →
      ∃ acts, exec_single_thread p c search settings start rs = some acts ∧
        acts.length = rs.length ∧
        ∀ k rec, rs.get? k = some rec →
          acts.get? k = process_record p c search settings (start + k) rec := by
  intro rs
  induction rs with
  | nil =>
    intro start _
    exact ⟨[], rfl, rfl, by intro k rec hk; simp at hk⟩
  | cons head tail ih =>
    intro start h
    rw [List.all_cons, Bool.and_eq_true] at h
    obtain ⟨hh, ht⟩ := h
    have hps : (process_record p c search settings start head).isSome := by
      unfold process_record
      have hpr := parse_record_isSome p c start head settings hh
      cases hv : parse_record p c start head settings with
      | none => rw [hv] at hpr; simp at hpr
      | some v =>
        cases v with
        | error e => simp
        | ok parsed =>
          cases hs : search parsed with
          | ok rows => simp [hs]
          | error m => simp [hs]
    obtain ⟨a, ha⟩ := Option.isSome_iff_exists.mp hps
    obtain ⟨acts, hacts, hlen, hget⟩ := ih (start + 1) ht
    refine ⟨a :: acts, ?_, by simp [hlen], ?_⟩
    · unfold exec_single_thread
      rw [ha, hacts]
      rfl
    · intro k rec hk
      cases k with
      | zero =>
        rw [List.get?_cons_zero] at hk
        cases hk
        simpa using ha.symm
      | succ k2 =>
        rw [List.get?_cons_succ] at hk
        rw [List.get?_cons_succ]
        rw [hget k2 rec hk]
        congr 1
        omega

/-- C3. A comparison record whose lng or lat does not parse is logged and
skipped while the run continues: when every successfully read record has as
many fields as the header, the single-threaded loop panics nowhere and yields
exactly one action per input record; the action of a record whose lng fails to
parse, or whose lng parses but whose lat fails, is the single stderr log of
the corresponding Parse error, an action that writes no output row, and every
other record is still processed at its own index. -/
theorem c3_bad_lng_lat_logged_run_continues {r : Type}
    (p : String → Option ℚ) (c : ℚ)
    (search : ParsedRecord → Except String (List r))
    (settings : InputSettings) (rs : List (Except Unit (List String)))
    (h : rs.all (record_len_ok settings) = true) :
    ∃ acts, exec_single_thread p c search settings 0 rs = some acts ∧
      acts.length = rs.length ∧
      (∀ k rec, rs.get? k = some rec →
        acts.get? k = process_record p c search settings k rec) ∧
      (∀ k rec lngStr, rs.get? k = some (.ok rec) →
        rec.get? settings.lng_index = some lngStr → p lngStr = none →
        acts.get? k = some
          (.loggedParse (.parseErr k "cannot parse lng for input record"))) ∧
      (∀ k rec lngStr lng latStr, rs.get? k = some (.ok rec) →
        rec.get? settings.lng_index = some lngStr → p lngStr = some lng →
        rec.get? settings.lat_index = some latStr → p latStr = none →
        acts.get? k = some
          (.loggedParse (.parseErr k "cannot parse lat for input record"))) := by
  obtain ⟨acts, hex, hlen, hget⟩ :=
    exec_single_thread_spec p c search settings rs 0 h
  refine ⟨acts, hex, hlen, ?_, ?_, ?_⟩
  · intro k rec hk
    simpa using hget k rec hk
  · intro k rec lngStr hk hlng hp
    rw [List.get?_eq_getElem?] at hlng
    have hk2 := hget k _ hk
    rw [Nat.zero_add] at hk2
    rw [hk2]
    simp [process_record, parse_record, hlng, hp]
  · intro k rec lngStr lng latStr hk hlng hplng hlat hplat
    rw [List.get?_eq_getElem?] at hlng hlat
    have hk2 := hget k _ hk
    rw [Nat.zero_add] at hk2
    rw [hk2]
    simp [process_record, parse_record, hlng, hplng, hlat, hplat]

/-- C3 witness: a two-record stream whose first record has an unparseable lng
and whose second record parses, with the lng column at position 0 and the lat
column at position 1, satisfies the length hypothesis and the conclusion. -/
theorem c3_bad_lng_lat_witness :
    ([Except.ok ["x", "2"], Except.ok ["2", "2"]] :
        List (Except Unit (List String))).all
      (record_len_ok ⟨1, 0, none, "id"⟩) = true ∧
    (∃ acts,
      exec_single_thread (fun t => if t = "2" then some 2 else none) 1
          (fun _ => (Except.ok [] : Except String (List Unit)))
          ⟨1, 0, none, "id"⟩ 0
          [Except.ok ["x", "2"], Except.ok ["2", "2"]] = some acts ∧
      acts.length =
        ([Except.ok ["x", "2"], Except.ok ["2", "2"]] :
          List (Except Unit (List String))).length ∧
      (∀ k rec,
        ([Except.ok ["x", "2"], Except.ok ["2", "2"]] :
          List (Except Unit (List String))).get? k = some rec →
        acts.get? k = process_record (fun t => if t = "2" then some 2 else none)
          1 (fun _ => (Except.ok [] : Except String (List Unit)))
          ⟨1, 0, none, "id"⟩ k rec) ∧
      (∀ k rec lngStr,
        ([Except.ok ["x", "2"], Except.ok ["2", "2"]] :
          List (Except Unit (List String))).get? k = some (.ok rec) →
        rec.get? 0 = some lngStr →
        (if lngStr = "2" then some (2 : ℚ) else none) = none →
        acts.get? k = some
          (.loggedParse (.parseErr k "cannot parse lng for input record"))) ∧
      (∀ k rec lngStr lng latStr,
        ([Except.ok ["x", "2"], Except.ok ["2", "2"]] :
          List (Except Unit (List String))).get? k = some (.ok rec) →
        rec.get? 0 = some lngStr →
        (if lngStr = "2" then some (2 : ℚ) else none) = some lng →
        rec.get? 1 = some latStr →
        (if latStr = "2" then some (2 : ℚ) else none) = none →
        acts.get? k = some
          (.loggedParse (.parseErr k "cannot parse lat for input record")))) :=
  ⟨by decide,
    c3_bad_lng_lat_logged_run_continues
      (fun t => if t = "2" then some 2 else none) 1
      (fun _ => (Except.ok [] : Except String (List Unit)))
      ⟨1, 0, none, "id"⟩
      [Except.ok ["x", "2"], Except.ok ["2", "2"]] (by decide)⟩

/-- C2. A KML Location is stored raw: for a Location with latitude 0 and
longitude 90 degrees, map_kml_item stores the point with x the latitude and y
the longitude and applies no conversion factor, so whatever the conversion
factor c is, the stored geometry differs from the converted point the claim
requires, longitude times c then latitude times c. -/
theorem c2_kml_location_stored_raw (c : ℚ) :
    map_kml_item c (0, KmlItem.location 0 90 []) =
      [Except.ok ⟨Geometry.point 0 90, 0, some (KmlItem.location 0 90 [])⟩] ∧
    Geometry.point 0 90 ≠ Geometry.point (90 * c) (0 * c) := by
  refine ⟨rfl, ?_⟩
  intro h
  rw [Geometry.point.injEq] at h
  exact absurd h.2 (by norm_num)

/-- C4. The distance field is rounded, not truncated: for a match at angular
distance 5003 over 31855044000, whose metric distance is exactly 1.0006
meters, the formatted value stands for 1001 millimeters while truncation at
the millimeter gives 1000, so the written field is not the truncation the
claim describes. -/
theorem c4_distance_rounded_not_truncated :
    write_line_distance_milli (5003 / 31855044000) = 1001 ∧
    trunc_milli (5003 / 31855044000) = 1000 := by
  have hval : (1000 : ℚ) * ((5003 / 31855044000) * MEAN_EARTH_RADIUS) =
      5003 / 5 := by
    unfold MEAN_EARTH_RADIUS
    norm_num
  have hfloor : ⌊(5003 / 5 : ℚ)⌋ = 1000 := by
    rw [Int.floor_eq_iff]
    norm_num
  constructor
  · unfold write_line_distance_milli round_half_even
    rw [hval, hfloor]
    norm_num
  · unfold trunc_milli
    rw [hval, hfloor]

/-- C5. Counterexample to the claimed header row: with the default id label
and no extra fields the header is id, lng, lat, distance, match_index, which
has five columns, not the six the claim lists, and with one extra field the
row still does not start with input_index nor contain find_index. -/
theorem c5_header_counterexample :
    make_csv_writer_header ⟨"id", 44, none⟩ ≠
      ["input_index", "id", "lng", "lat", "distance", "find_index"] ∧
    make_csv_writer_header ⟨"id", 44, some ["a"]⟩ ≠
      ["input_index", "id", "lng", "lat", "distance", "find_index", "a"] := by
  constructor <;> simp [make_csv_writer_header]

/-- C5 amended. The header row consists of the configured id label, lng, lat,
distance and match_index, in that order, followed by the user-requested extra
fields in the order given; its length is five plus the number of extra
fields. -/
theorem c5_header_amended (s : WriterSettings) :
    (make_csv_writer_header s).take 5 =
      [s.id_label, "lng", "lat", "distance", "match_index"] ∧
    (make_csv_writer_header s).drop 5 = s.fields.getD [] ∧
    (make_csv_writer_header s).length = 5 + (s.fields.getD []).length := by
  refine ⟨rfl, rfl, ?_⟩
  simp only [make_csv_writer_header, List.length_append, List.length_cons,
    List.length_nil]

/-- C8. Counterexample to the claim that the projection emits nothing besides
the requested fields: the shapefile search-result metadata for one requested
field on an empty record is the two-element sequence id then the empty string,
not the single empty string the claim requires. -/
theorem c8_projection_counterexample :
    shp_make_search_result_meta [] (some ["foo"]) = ["id", ""] ∧
    shp_make_search_result_meta [] (some ["foo"]) ≠ [""] := by
  constructor <;> simp [shp_make_search_result_meta, convert_dbase_field_opt]

/-- C8 amended. The datum projection iter_str yields exactly one string per
requested field in request order, with the empty string substituted by the
variant lookups for missing data and the None variant, and nothing at all when
no fields are requested; the shapefile search-result metadata is that same
projection with the fixed string id prepended before the requested fields. -/
theorem c8_projection_amended (b : BaseData) (fs : List String)
    (record : List (String × String)) :
    (BaseData.iter_str b (some fs)).length = fs.length ∧
    BaseData.iter_str BaseData.noneData (some fs) = fs.map (fun _ => "") ∧
    BaseData.iter_str b none = [] ∧
    shp_make_search_result_meta record (some fs) =
      "id" :: BaseData.iter_str (BaseData.shp record) (some fs) ∧
    BaseData.iter_str (BaseData.csvData record) (some fs) =
      fs.map (fun f => (List.lookup f record).getD "") := by
  refine ⟨?_, rfl, rfl, rfl, rfl⟩
  simp [BaseData.iter_str]

end GeoMunge
